import Mathlib

/-!
Shallow embedding of the atgora-api firehose ingestion core:
the timestamp clamp (src/firehose/clamp-timestamp.ts), the record
validator (src/firehose/validation.ts), the DID document verifier
(src/lib/at-uri.ts) and the record event dispatcher
(src/firehose/handlers/record.ts).

Times are milliseconds since the epoch, modelled as integers.
Collaborator calls that can reject (the key-value cache, the PLC
directory fetch, database queries, indexer entry points, the
account-age service) are modelled by `Except Unit` outcomes supplied in
an environment record, so one Lean evaluation corresponds to one fixed
schedule of collaborator behaviour.
-/

namespace Atgora

/-! ### Timestamp clamp (src/firehose/clamp-timestamp.ts) -/

def MAX_FUTURE_MS : Int := 5 * 60 * 1000

def MAX_PAST_MS : Int := 60 * 60 * 1000

/-- `clampCreatedAt` from src/firehose/clamp-timestamp.ts, with `Date`
values embedded as integer milliseconds. -/
def clampCreatedAt (clientCreatedAt now : Int) : Int :=
  let maxFuture := now + MAX_FUTURE_MS
  let maxPast := now - MAX_PAST_MS
  if clientCreatedAt > maxFuture then now
  else if clientCreatedAt < maxPast then maxPast
  else clientCreatedAt

/-! ### Identity verifier (src/lib/at-uri.ts) -/

/-- Soft TTL in seconds: triggers background refresh after this. -/
def DID_DOC_SOFT_TTL : Int := 3600

/-- Hard TTL in seconds: key expiry in the cache store. -/
def DID_DOC_HARD_TTL : Int := 7200

/-- The two-shape verification result of the TS union
`\x7b active: true \x7d | \x7b active: false; reason: string \x7d`. -/
inductive DidVerificationResult where
  | active
  | inactive (reason : String)
deriving DecidableEq

/-- The persisted cache value `CachedDidEntry`. -/
structure CachedDidEntry where
  active : Bool
  reason : Option String
  resolvedAt : Int
deriving DecidableEq

/-- Outcome of one HTTP request against the PLC directory: either a
response carrying a status code, or a thrown network/timeout error. -/
inductive FetchOutcome where
  | response (status : Nat)
  | netError
deriving DecidableEq

/-- `response.ok` of the fetch API: status in the range 200..299. -/
def responseOk (status : Nat) : Bool :=
  decide (200 ≤ status) && decide (status < 300)

/-- `resolveFromPlc`: maps a directory response to a verdict; an
unexpected status throws, as does a network or timeout failure of the
fetch itself (`Except.error`). -/
def resolveFromPlc (fetch : FetchOutcome) : Except Unit DidVerificationResult :=
  match fetch with
  | .netError => .error ()
  | .response status =>
    if responseOk status then .ok .active
    else if status = 410 then .ok (.inactive "DID has been tombstoned")
    else if status = 404 then .ok (.inactive "DID not found in PLC directory")
    else .error ()

/-- The entry written by `cacheResult`: reason is present exactly when
the verdict is inactive, `resolvedAt` is the write-time clock. -/
def cacheResult (now : Int) (result : DidVerificationResult) : CachedDidEntry :=
  match result with
  | .active => { active := true, reason := none, resolvedAt := now }
  | .inactive reason => { active := false, reason := some reason, resolvedAt := now }

/-- Observable side effects of one `verify` call, in order: the cache
read, directory calls (tagged background or synchronous) and cache
writes (tagged with whether the `cache.set` call succeeded). -/
inductive VerifyEffect where
  | cacheGet
  | upstreamCall (background : Bool)
  | cacheSet (entry : CachedDidEntry) (succeeded : Bool)
deriving DecidableEq

/-- One fixed schedule of collaborator behaviour for a `verify` call. -/
structure VerifyEnv where
  now : Int
  cacheRead : Except Unit (Option CachedDidEntry)
  plcFetch : FetchOutcome
  cacheWrite : Bool
  bgFetch : FetchOutcome
  bgCacheWrite : Bool

/-- `backgroundRefresh`: fire-and-forget resolution; on success the
result is written back to cache, on failure only a warning is logged.
Returns the effects of the detached task. -/
def backgroundRefresh (env : VerifyEnv) : List VerifyEffect :=
  VerifyEffect.upstreamCall true ::
    match resolveFromPlc env.bgFetch with
    | .ok result => [.cacheSet (cacheResult env.now result) env.bgCacheWrite]
    | .error _ => []

/-- The verdict served from a cache entry: active when the entry is
active, otherwise inactive with the cached reason (the source falls
back to a default reason when the entry lacks one). -/
def cachedVerdict (entry : CachedDidEntry) : DidVerificationResult :=
  if entry.active then .active
  else .inactive (entry.reason.getD "DID is not active")

/-- The cache-miss tail of `verify`: synchronous resolution from the
PLC directory inside try/catch; success is written to cache
best-effort, any thrown error is caught and mapped to the fail-closed
verdict. -/
def verifyMiss (env : VerifyEnv) (trace : List VerifyEffect) :
    Except Unit (DidVerificationResult × List VerifyEffect) :=
  match resolveFromPlc env.plcFetch with
  | .ok result =>
    .ok (result,
      trace ++ [.upstreamCall false, .cacheSet (cacheResult env.now result) env.cacheWrite])
  | .error _ =>
    .ok (.inactive "DID document resolution failed", trace ++ [.upstreamCall false])

/-- The `startsWith("did:plc:")` test of `verify`, expressed on the
character-list model of strings so that it evaluates in the kernel. -/
def isPlcDid (did : String) : Bool :=
  "did:plc:".data.isPrefixOf did.data

/-- `createDidDocumentVerifier(...).verify`. A non-PLC DID short
circuits to active. Otherwise the cache is consulted: a parse/transport
failure of the read is caught and falls through to the miss path; a hit
within the soft TTL is served directly; a hit past the soft TTL is
served stale while a background refresh is launched. An uncaught throw
would surface as `Except.error`. -/
def verify (did : String) (env : VerifyEnv) :
    Except Unit (DidVerificationResult × List VerifyEffect) :=
  if !isPlcDid did then .ok (.active, [])
  else
    match env.cacheRead with
    | .ok (some cachedEntry) =>
      let age := env.now - cachedEntry.resolvedAt
      if age > DID_DOC_SOFT_TTL * 1000 then
        .ok (cachedVerdict cachedEntry, .cacheGet :: backgroundRefresh env)
      else
        .ok (cachedVerdict cachedEntry, [.cacheGet])
    | .ok none => verifyMiss env [.cacheGet]
    | .error _ => verifyMiss env [.cacheGet]

/-- The directory calls recorded in an effect trace, each tagged with
whether it was a background call. -/
def upstreamCalls (effects : List VerifyEffect) : List Bool :=
  effects.filterMap fun e =>
    match e with
    | .upstreamCall b => some b
    | _ => none

/-! ### Record validator (src/firehose/validation.ts) -/

def MAX_RECORD_SIZE : Nat := 64 * 1024

/-- Modelled from the spec: `SUPPORTED_COLLECTIONS` lives in
src/firehose/types.ts, which is absent from the sources; the closed
three-collection enum is pinned by the literal keys of `schemaMap` in
src/firehose/validation.ts and by tests/unit/firehose/types.test.ts. -/
def SUPPORTED_COLLECTIONS : List String :=
  ["forum.atgora.topic.post", "forum.atgora.topic.reply", "forum.atgora.interaction.reaction"]

def isSupportedCollection (collection : String) : Bool :=
  SUPPORTED_COLLECTIONS.contains collection

/-- Modelled from the spec: `COLLECTION_MAP` lives in
src/firehose/types.ts, absent from the sources; its 1:1 mapping from
collection NSID to indexer capability name is pinned by
tests/unit/firehose/types.test.ts. -/
def COLLECTION_MAP (collection : String) : Option String :=
  if collection = "forum.atgora.topic.post" then some "topic"
  else if collection = "forum.atgora.topic.reply" then some "reply"
  else if collection = "forum.atgora.interaction.reaction" then some "reaction"
  else none

/-- The TS `ValidationResult` union, polymorphic in the document type. -/
inductive ValidationResult (Doc : Type) where
  | failure (error : String)
  | success (data : Doc)
deriving DecidableEq

/-- A per-collection schema capability: the external lexicon
`safeParse`, of which only the success flag is consumed. -/
structure SchemaCapability (Doc : Type) where
  safeParse : Doc → Bool

/-- The external lexicon package and JSON serialization, abstracted:
`serializedLength` is the length of `JSON.stringify(record)`. -/
structure LexiconEnv (Doc : Type) where
  serializedLength : Doc → Nat
  topicPostSchema : SchemaCapability Doc
  topicReplySchema : SchemaCapability Doc
  reactionSchema : SchemaCapability Doc

/-- The `schemaMap` record literal; only ever consulted for one of the
three supported collections. -/
def schemaMap {Doc : Type} (lex : LexiconEnv Doc) (collection : String) :
    SchemaCapability Doc :=
  if collection = "forum.atgora.topic.post" then lex.topicPostSchema
  else if collection = "forum.atgora.topic.reply" then lex.topicReplySchema
  else lex.reactionSchema

/-- `validateRecord`: membership check, then size check, then schema
check, short-circuiting on the first failure. -/
def validateRecord {Doc : Type} (lex : LexiconEnv Doc) (collection : String)
    (record : Doc) : ValidationResult Doc :=
  if !isSupportedCollection collection then
    .failure ("Unsupported collection: " ++ collection)
  else if lex.serializedLength record > MAX_RECORD_SIZE then
    .failure ("Record exceeds maximum size of " ++ toString MAX_RECORD_SIZE ++ " bytes")
  else if !(schemaMap lex collection).safeParse record then
    .failure ("Validation failed for " ++ collection)
  else
    .success record

/-! ### Record event dispatcher (src/firehose/handlers/record.ts) -/

inductive Action where
  | create
  | update
  | delete
deriving DecidableEq

/-- The firehose `RecordEvent`: payload (`record`) and `cid` are
optional, absent on deletes. -/
structure RecordEvent (Doc : Type) where
  id : String
  collection : String
  action : Action
  did : String
  rkey : String
  record : Option Doc
  cid : Option String
  live : Bool

inductive TrustStatus where
  | new
  | trusted
deriving DecidableEq

/-- The params object built by `handle` and passed to the indexer
create/update entry points. -/
structure IndexParams (Doc : Type) where
  uri : String
  rkey : String
  did : String
  cid : String
  record : Doc
  live : Bool
  trustStatus : TrustStatus
deriving DecidableEq

/-- One indexer invocation as observed by the indexer collaborators.
The delete entry point carries the compensating reference: `none` for
the topic indexer (whose delete takes no reference), `some rootUri`
for replies and `some subjectUri` for reactions. -/
inductive IndexerCall (Doc : Type) where
  | createCall (indexer : String) (params : IndexParams Doc)
  | updateCall (indexer : String) (params : IndexParams Doc)
  | deleteCall (indexer : String) (uri rkey did : String) (compRef : Option String)
deriving DecidableEq

/-- A row of the `users` table as selected by
`upsertUserWithTrustCheck`. -/
structure UserRow where
  did : String
  accountCreatedAt : Option Int

/-- One fixed schedule of collaborator behaviour for a `handle` call:
database query outcomes, account-age service outcomes, and the
outcome of each indexer entry point. -/
structure DispatcherEnv (Doc : Type) where
  lexicons : LexiconEnv Doc
  replySelect : Except Unit (List String)
  reactionSelect : Except Unit (List String)
  userSelect : Except Unit (List UserRow)
  userUpdate : Except Unit Unit
  userInsert : Except Unit Unit
  resolveCreationDate : Except Unit (Option Int)
  determineTrustStatus : Option Int → TrustStatus
  topicCreate : Except Unit Unit
  topicUpdate : Except Unit Unit
  topicDelete : Except Unit Unit
  replyCreate : Except Unit Unit
  replyUpdate : Except Unit Unit
  replyDelete : Except Unit Unit
  reactionCreate : Except Unit Unit
  reactionDelete : Except Unit Unit

/-- `dispatchDelete`: for replies and reactions, the compensating
lookup runs first and an absent row degrades to an empty reference;
the matching indexer delete entry point is then invoked. The returned
pair is the list of indexer invocations together with the propagated
outcome. -/
def dispatchDelete {Doc : Type} (env : DispatcherEnv Doc)
    (indexerName uri rkey did : String) :
    List (IndexerCall Doc) × Except Unit Unit :=
  if indexerName = "topic" then
    ([.deleteCall "topic" uri rkey did none], env.topicDelete)
  else if indexerName = "reply" then
    match env.replySelect with
    | .error e => ([], .error e)
    | .ok rows =>
      let rootUri := rows.head?.getD ""
      ([.deleteCall "reply" uri rkey did (some rootUri)], env.replyDelete)
  else if indexerName = "reaction" then
    match env.reactionSelect with
    | .error e => ([], .error e)
    | .ok rows =>
      let subjectUri := rows.head?.getD ""
      ([.deleteCall "reaction" uri rkey did (some subjectUri)], env.reactionDelete)
  else ([], .ok ())

/-- `dispatchCreate`: routes to the indexer named by the collection
map; an unmatched name falls through the switch. -/
def dispatchCreate {Doc : Type} (env : DispatcherEnv Doc)
    (indexerName : String) (params : IndexParams Doc) :
    List (IndexerCall Doc) × Except Unit Unit :=
  if indexerName = "topic" then
    ([.createCall "topic" params], env.topicCreate)
  else if indexerName = "reply" then
    ([.createCall "reply" params], env.replyCreate)
  else if indexerName = "reaction" then
    ([.createCall "reaction" params], env.reactionCreate)
  else ([], .ok ())

/-- `dispatchUpdate`: the switch has cases for topic and reply only;
reactions have no update entry point, so the event falls through. -/
def dispatchUpdate {Doc : Type} (env : DispatcherEnv Doc)
    (indexerName : String) (params : IndexParams Doc) :
    List (IndexerCall Doc) × Except Unit Unit :=
  if indexerName = "topic" then
    ([.updateCall "topic" params], env.topicUpdate)
  else if indexerName = "reply" then
    ([.updateCall "reply" params], env.replyUpdate)
  else ([], .ok ())

/-- The try-block body of `upsertUserWithTrustCheck`: select the user
row; an existing row with a stored creation date classifies directly,
a legacy row resolves and stores the date first, a missing row
resolves the date and inserts. Thrown collaborator errors propagate. -/
def upsertUserWithTrustCheckBody {Doc : Type} (env : DispatcherEnv Doc)
    (did : String) : Except Unit TrustStatus := do
  let existing ← env.userSelect
  match existing.head? with
  | some user =>
    match user.accountCreatedAt with
    | some createdAt => pure (env.determineTrustStatus (some createdAt))
    | none => do
      let createdAt ← env.resolveCreationDate
      match createdAt with
      | some _ => do
        let _ ← env.userUpdate
        pure (env.determineTrustStatus createdAt)
      | none => pure (env.determineTrustStatus createdAt)
  | none => do
    let createdAt ← env.resolveCreationDate
    let _ ← env.userInsert
    pure (env.determineTrustStatus createdAt)

/-- `upsertUserWithTrustCheck`: the body is wrapped in try/catch and
any thrown error fails open to the trusted classification. -/
def upsertUserWithTrustCheck {Doc : Type} (env : DispatcherEnv Doc)
    (did : String) : TrustStatus :=
  match upsertUserWithTrustCheckBody env did with
  | .ok status => status
  | .error _ => .trusted

/-- The try-block body of `RecordHandler.handle`: collection gate,
delete branch with compensating lookup, create/update branch with
validation, trust classification on create, and indexer dispatch.
Thrown collaborator errors propagate to the caller. -/
def handleBody {Doc : Type} (env : DispatcherEnv Doc) (event : RecordEvent Doc) :
    List (IndexerCall Doc) × Except Unit Unit :=
  if !isSupportedCollection event.collection then ([], .ok ())
  else
    let uri := "at://" ++ event.did ++ "/" ++ event.collection ++ "/" ++ event.rkey
    let indexerName := (COLLECTION_MAP event.collection).getD ""
    match event.action with
    | .delete => dispatchDelete env indexerName uri event.rkey event.did
    | a =>
      match event.record with
      | none => ([], .ok ())
      | some record =>
        match validateRecord env.lexicons event.collection record with
        | .failure _ => ([], .ok ())
        | .success _ =>
          let trustStatus :=
            if a = Action.create then upsertUserWithTrustCheck env event.did
            else .trusted
          let params : IndexParams Doc :=
            { uri := uri, rkey := event.rkey, did := event.did,
              cid := event.cid.getD "", record := record, live := event.live,
              trustStatus := trustStatus }
          if a = Action.create then dispatchCreate env indexerName params
          else dispatchUpdate env indexerName params

/-- `RecordHandler.handle`: the single outermost try/catch; a thrown
error is logged with the event identifiers and the event is dropped.
The indexer invocations made before the throw are preserved in the
trace. -/
def handle {Doc : Type} (env : DispatcherEnv Doc) (event : RecordEvent Doc) :
    List (IndexerCall Doc) × Except Unit Unit :=
  match handleBody env event with
  | (calls, .ok _) => (calls, .ok ())
  | (calls, .error _) => (calls, .ok ())

/-! ### Concrete instantiations used to evaluate the model -/

/-- A lexicon environment over the one-point document type: every
document serializes to `len` characters and every schema answers
`ok`. -/
def unitLex (len : Nat) (ok : Bool) : LexiconEnv Unit :=
  { serializedLength := fun _ => len,
    topicPostSchema := { safeParse := fun _ => ok },
    topicReplySchema := { safeParse := fun _ => ok },
    reactionSchema := { safeParse := fun _ => ok } }

/-- A dispatcher environment over the one-point document type in which
every collaborator succeeds, lookups find nothing, and schemas accept. -/
def unitDispatcherEnv : DispatcherEnv Unit :=
  { lexicons := unitLex 0 true,
    replySelect := .ok [], reactionSelect := .ok [],
    userSelect := .ok [], userUpdate := .ok (), userInsert := .ok (),
    resolveCreationDate := .ok none,
    determineTrustStatus := fun _ => .trusted,
    topicCreate := .ok (), topicUpdate := .ok (), topicDelete := .ok (),
    replyCreate := .ok (), replyUpdate := .ok (), replyDelete := .ok (),
    reactionCreate := .ok (), reactionDelete := .ok () }

/-- A concrete record event over the one-point document type. -/
def mkEvent (collection : String) (action : Action) (record : Option Unit) :
    RecordEvent Unit :=
  { id := "e1", collection := collection, action := action, did := "did:plc:a",
    rkey := "rk", record := record, cid := none, live := true }

/-! ### Theorems -/

/-- Every verification result is one of the two shapes. -/
theorem didVerificationResult_shape (r : DidVerificationResult) :
    r = .active ∨ ∃ reason, r = .inactive reason := by
  cases r with
  | active => exact Or.inl rfl
  | inactive reason => exact Or.inr ⟨reason, rfl⟩

/-- Claim C4: for all clientTime and now, the clamp returns `now` when
clientTime is more than five minutes ahead, returns `now - 1h` when
clientTime is more than one hour behind, passes clientTime through
unchanged otherwise (boundaries inclusive of the unclamped branch),
and the result always lies in `[now - 1h, now + 5min]`. -/
theorem clampCreatedAt_policy (clientTime now : Int) :
    (clientTime > now + MAX_FUTURE_MS → clampCreatedAt clientTime now = now) ∧
    (clientTime < now - MAX_PAST_MS → clampCreatedAt clientTime now = now - MAX_PAST_MS) ∧
    (now - MAX_PAST_MS ≤ clientTime → clientTime ≤ now + MAX_FUTURE_MS →
      clampCreatedAt clientTime now = clientTime) ∧
    now - MAX_PAST_MS ≤ clampCreatedAt clientTime now ∧
    clampCreatedAt clientTime now ≤ now + MAX_FUTURE_MS := by
  unfold clampCreatedAt MAX_FUTURE_MS MAX_PAST_MS
  dsimp only
  refine ⟨fun h => ?_, fun h => ?_, fun h1 h2 => ?_, ?_, ?_⟩ <;>
    split_ifs <;> omega

/-- Witness for C4 at concrete boundary inputs: one millisecond past
the future bound clamps to now, one millisecond past the past bound
clamps to now minus one hour, and both exact boundaries pass through
unmodified. -/
theorem clampCreatedAt_policy_witness :
    clampCreatedAt 300001 0 = 0 ∧
    clampCreatedAt (-3600001) 0 = -3600000 ∧
    clampCreatedAt 300000 0 = 300000 ∧
    clampCreatedAt (-3600000) 0 = -3600000 :=
  ⟨(clampCreatedAt_policy 300001 0).1 (by decide),
   (clampCreatedAt_policy (-3600001) 0).2.1 (by decide),
   (clampCreatedAt_policy 300000 0).2.2.1 (by decide) (by decide),
   (clampCreatedAt_policy (-3600000) 0).2.2.1 (by decide) (by decide)⟩

/-- Claim C2: for every identity and every combination of cache
behaviour (hit, miss, read failure, write failure) and directory
behaviour (success, error status, network failure, timeout), `verify`
returns normally (never `Except.error`) and the result is exactly one
of the two shapes active or inactive-with-reason. -/
theorem verify_never_throws (did : String) (env : VerifyEnv) :
    ∃ result effects, verify did env = Except.ok (result, effects) ∧
      (result = .active ∨ ∃ reason, result = .inactive reason) := by
  unfold verify verifyMiss
  dsimp only
  repeat' split
  all_goals exact ⟨_, _, rfl, didVerificationResult_shape _⟩

/-- A cache entry whose `active` flag is set serves the active verdict. -/
theorem cachedVerdict_active {entry : CachedDidEntry} (h : entry.active = true) :
    cachedVerdict entry = .active := by
  simp [cachedVerdict, h]

/-- An inactive cache entry carrying a reason serves that reason verbatim. -/
theorem cachedVerdict_inactive {entry : CachedDidEntry} {reason : String}
    (h : entry.active = false) (hr : entry.reason = some reason) :
    cachedVerdict entry = .inactive reason := by
  simp [cachedVerdict, h, hr]

/-- Under a fresh cache hit (age at most the soft TTL), `verify` serves
the cached verdict with the cache read as its only effect. -/
theorem verify_hit_fresh_eq {did : String} {env : VerifyEnv} {entry : CachedDidEntry}
    (hdid : isPlcDid did = true)
    (hread : env.cacheRead = Except.ok (some entry))
    (hfresh : env.now - entry.resolvedAt ≤ DID_DOC_SOFT_TTL * 1000) :
    verify did env = Except.ok (cachedVerdict entry, [VerifyEffect.cacheGet]) := by
  have hcond : ¬ env.now - entry.resolvedAt > DID_DOC_SOFT_TTL * 1000 := by omega
  unfold verify
  rw [hread]
  simp only [hdid, Bool.not_true, Bool.false_eq_true, if_false]
  rw [if_neg hcond]

/-- Under a stale cache hit (age past the soft TTL), `verify` serves
the cached verdict and appends the background-refresh effects. -/
theorem verify_hit_stale_eq {did : String} {env : VerifyEnv} {entry : CachedDidEntry}
    (hdid : isPlcDid did = true)
    (hread : env.cacheRead = Except.ok (some entry))
    (hstale : DID_DOC_SOFT_TTL * 1000 < env.now - entry.resolvedAt) :
    verify did env =
      Except.ok (cachedVerdict entry, VerifyEffect.cacheGet :: backgroundRefresh env) := by
  unfold verify
  rw [hread]
  simp only [hdid, Bool.not_true, Bool.false_eq_true, if_false]
  rw [if_pos hstale]

/-- With no usable cache entry (miss or read failure), `verify` runs
the synchronous miss path. -/
theorem verify_miss_eq {did : String} {env : VerifyEnv}
    (hdid : isPlcDid did = true)
    (hread : env.cacheRead = Except.ok none ∨ env.cacheRead = Except.error ()) :
    verify did env = verifyMiss env [VerifyEffect.cacheGet] := by
  unfold verify
  rcases hread with h | h <;> rw [h] <;>
    simp only [hdid, Bool.not_true, Bool.false_eq_true, if_false]

/-- Claim C6: a centralized-scheme identity with a cache entry no older
than the one-hour soft TTL (boundary inclusive) gets the cached verdict
verbatim, with no upstream directory call and no background refresh:
the only effect of the call is the cache read. -/
theorem verify_fresh_hit_no_upstream (did : String) (env : VerifyEnv)
    (entry : CachedDidEntry)
    (hdid : isPlcDid did = true)
    (hread : env.cacheRead = Except.ok (some entry))
    (hfresh : env.now - entry.resolvedAt ≤ DID_DOC_SOFT_TTL * 1000) :
    verify did env = Except.ok (cachedVerdict entry, [VerifyEffect.cacheGet]) ∧
    upstreamCalls [VerifyEffect.cacheGet] = [] ∧
    (entry.active = true → cachedVerdict entry = .active) ∧
    (∀ reason, entry.active = false → entry.reason = some reason →
      cachedVerdict entry = .inactive reason) :=
  ⟨verify_hit_fresh_eq hdid hread hfresh, rfl,
   fun h => cachedVerdict_active h,
   fun _ h hr => cachedVerdict_inactive h hr⟩

/-- Witness for C6: an active entry thirty minutes old is served as is,
with the cache read as the only effect. -/
theorem verify_fresh_hit_no_upstream_witness :
    verify "did:plc:w1"
      { now := 1800000,
        cacheRead := Except.ok (some { active := true, reason := none, resolvedAt := 0 }),
        plcFetch := FetchOutcome.netError, cacheWrite := true,
        bgFetch := FetchOutcome.netError, bgCacheWrite := true } =
      Except.ok (DidVerificationResult.active, [VerifyEffect.cacheGet]) := by
  have h := verify_fresh_hit_no_upstream "did:plc:w1"
    { now := 1800000,
      cacheRead := Except.ok (some { active := true, reason := none, resolvedAt := 0 }),
      plcFetch := FetchOutcome.netError, cacheWrite := true,
      bgFetch := FetchOutcome.netError, bgCacheWrite := true }
    { active := true, reason := none, resolvedAt := 0 }
    (by decide) rfl (by norm_num [DID_DOC_SOFT_TTL])
  rw [h.1, h.2.2.1 rfl]

/-- Claim C5: a centralized-scheme identity with a cache entry older
than the soft TTL (and within the hard TTL) gets the cached verdict
immediately; exactly one upstream call is made and it is the background
one; and for every outcome of the background fetch and background cache
write the returned verdict is the same cached verdict. -/
theorem verify_stale_hit_serves_cached (did : String) (env : VerifyEnv)
    (entry : CachedDidEntry)
    (hdid : isPlcDid did = true)
    (hread : env.cacheRead = Except.ok (some entry))
    (hstale : DID_DOC_SOFT_TTL * 1000 < env.now - entry.resolvedAt)
    (hhard : env.now - entry.resolvedAt ≤ DID_DOC_HARD_TTL * 1000) :
    verify did env =
      Except.ok (cachedVerdict entry, VerifyEffect.cacheGet :: backgroundRefresh env) ∧
    upstreamCalls (VerifyEffect.cacheGet :: backgroundRefresh env) = [true] ∧
    (∀ bgFetch bgCacheWrite, ∃ effects,
      verify did { env with bgFetch := bgFetch, bgCacheWrite := bgCacheWrite } =
        Except.ok (cachedVerdict entry, effects)) ∧
    (entry.active = true → cachedVerdict entry = .active) ∧
    (∀ reason, entry.active = false → entry.reason = some reason →
      cachedVerdict entry = .inactive reason) := by
  refine ⟨verify_hit_stale_eq hdid hread hstale, ?_, ?_, ?_, ?_⟩
  · unfold backgroundRefresh
    cases resolveFromPlc env.bgFetch <;> simp [upstreamCalls]
  · intro bgFetch bgCacheWrite
    exact ⟨_, verify_hit_stale_eq hdid hread hstale⟩
  · exact fun h => cachedVerdict_active h
  · exact fun _ h hr => cachedVerdict_inactive h hr

/-- Witness for C5: an inactive entry seventy minutes old is served
with its cached reason even though the background refresh fails, and
the only upstream call in the trace is the background one. -/
theorem verify_stale_hit_serves_cached_witness :
    verify "did:plc:w2"
      { now := 4200000,
        cacheRead := Except.ok
          (some { active := false, reason := some "DID has been tombstoned", resolvedAt := 0 }),
        plcFetch := FetchOutcome.netError, cacheWrite := true,
        bgFetch := FetchOutcome.netError, bgCacheWrite := true } =
      Except.ok (DidVerificationResult.inactive "DID has been tombstoned",
        [VerifyEffect.cacheGet, VerifyEffect.upstreamCall true]) := by
  have h := verify_stale_hit_serves_cached "did:plc:w2"
    { now := 4200000,
      cacheRead := Except.ok
        (some { active := false, reason := some "DID has been tombstoned", resolvedAt := 0 }),
      plcFetch := FetchOutcome.netError, cacheWrite := true,
      bgFetch := FetchOutcome.netError, bgCacheWrite := true }
    { active := false, reason := some "DID has been tombstoned", resolvedAt := 0 }
    (by decide) rfl (by norm_num [DID_DOC_SOFT_TTL]) (by norm_num [DID_DOC_HARD_TTL])
  rw [h.1, h.2.2.2.2 "DID has been tombstoned" rfl rfl]
  rfl

/-- The outer catch of `handle` maps any body outcome to normal
return, keeping the indexer invocations already made. -/
theorem handle_eq_of_body {Doc : Type} {env : DispatcherEnv Doc}
    {event : RecordEvent Doc} {calls : List (IndexerCall Doc)}
    {outcome : Except Unit Unit}
    (h : handleBody env event = (calls, outcome)) :
    handle env event = (calls, Except.ok ()) := by
  unfold handle
  rw [h]
  cases outcome <;> rfl

/-- A validation success implies the collection passed the membership
gate. -/
theorem supported_of_validate_success {Doc : Type} {lex : LexiconEnv Doc}
    {collection : String} {record data : Doc}
    (h : validateRecord lex collection record = .success data) :
    isSupportedCollection collection = true := by
  by_contra hne
  have hfalse : isSupportedCollection collection = false := by
    simpa using hne
  unfold validateRecord at h
  rw [hfalse] at h
  simp at h

/-- A supported collection is one of the three NSIDs of the closed enum. -/
theorem supported_collection_cases {collection : String}
    (h : isSupportedCollection collection = true) :
    collection = "forum.atgora.topic.post" ∨ collection = "forum.atgora.topic.reply" ∨
      collection = "forum.atgora.interaction.reaction" := by
  have hm : collection ∈ SUPPORTED_COLLECTIONS := by
    unfold isSupportedCollection at h
    exact List.elem_iff.mp h
  simpa [SUPPORTED_COLLECTIONS] using hm

/-- Reduction of `handleBody` on a delete event of a supported
collection. -/
theorem handleBody_delete_eq {Doc : Type} (env : DispatcherEnv Doc)
    (event : RecordEvent Doc)
    (haction : event.action = Action.delete)
    (hsup : isSupportedCollection event.collection = true) :
    handleBody env event =
      dispatchDelete env ((COLLECTION_MAP event.collection).getD "")
        ("at://" ++ event.did ++ "/" ++ event.collection ++ "/" ++ event.rkey)
        event.rkey event.did := by
  unfold handleBody
  rw [haction, hsup]
  simp only [Bool.not_true, Bool.false_eq_true, if_false]

/-- Claim C1: for every record event and every collaborator behaviour,
`handle` returns normally; any error thrown during validation, trust
resolution, compensating lookup or indexer dispatch is contained at the
single outermost boundary and the event is dropped, with the indexer
invocations made before the throw preserved. -/
theorem handle_never_throws {Doc : Type} (env : DispatcherEnv Doc)
    (event : RecordEvent Doc) :
    (handle env event).2 = Except.ok () ∧
    (handle env event).1 = (handleBody env event).1 := by
  cases h : handleBody env event with
  | mk calls outcome =>
    rw [handle_eq_of_body h]
    exact ⟨rfl, rfl⟩

/-- Reduction of `dispatchDelete` for the reply indexer with a
successful compensating lookup. -/
theorem dispatchDelete_reply_eq {Doc : Type} (env : DispatcherEnv Doc)
    (uri rkey did : String) {rows : List String}
    (hsel : env.replySelect = Except.ok rows) :
    dispatchDelete env "reply" uri rkey did =
      ([IndexerCall.deleteCall "reply" uri rkey did (some (rows.head?.getD ""))],
        env.replyDelete) := by
  unfold dispatchDelete
  rw [if_neg (by decide), if_pos rfl, hsel]

/-- Reduction of `dispatchDelete` for the reaction indexer with a
successful compensating lookup. -/
theorem dispatchDelete_reaction_eq {Doc : Type} (env : DispatcherEnv Doc)
    (uri rkey did : String) {rows : List String}
    (hsel : env.reactionSelect = Except.ok rows) :
    dispatchDelete env "reaction" uri rkey did =
      ([IndexerCall.deleteCall "reaction" uri rkey did (some (rows.head?.getD ""))],
        env.reactionDelete) := by
  unfold dispatchDelete
  rw [if_neg (by decide), if_neg (by decide), if_pos rfl, hsel]

/-- Claim C8: a delete event of the reply or reaction collection whose
URI has no matching row in the local store still invokes that indexer
delete entry point, with an empty compensating reference, and the
handling returns normally whatever the indexer call does. -/
theorem handle_delete_missing_row (Doc : Type) (env : DispatcherEnv Doc)
    (event : RecordEvent Doc)
    (haction : event.action = Action.delete) :
    (event.collection = "forum.atgora.topic.reply" →
      env.replySelect = Except.ok [] →
      handle env event =
        ([IndexerCall.deleteCall "reply"
            ("at://" ++ event.did ++ "/" ++ event.collection ++ "/" ++ event.rkey)
            event.rkey event.did (some "")], Except.ok ())) ∧
    (event.collection = "forum.atgora.interaction.reaction" →
      env.reactionSelect = Except.ok [] →
      handle env event =
        ([IndexerCall.deleteCall "reaction"
            ("at://" ++ event.did ++ "/" ++ event.collection ++ "/" ++ event.rkey)
            event.rkey event.did (some "")], Except.ok ())) := by
  constructor
  · intro hc hsel
    have hsup : isSupportedCollection event.collection = true := by rw [hc]; decide
    have hb := handleBody_delete_eq env event haction hsup
    rw [hc] at hb
    have hmap : COLLECTION_MAP "forum.atgora.topic.reply" = some "reply" := by decide
    rw [hmap] at hb
    simp only [Option.getD_some] at hb
    rw [dispatchDelete_reply_eq env _ _ _ hsel] at hb
    simp only [List.head?_nil, Option.getD_none] at hb
    rw [hc]
    exact handle_eq_of_body hb
  · intro hc hsel
    have hsup : isSupportedCollection event.collection = true := by rw [hc]; decide
    have hb := handleBody_delete_eq env event haction hsup
    rw [hc] at hb
    have hmap : COLLECTION_MAP "forum.atgora.interaction.reaction" = some "reaction" := by
      decide
    rw [hmap] at hb
    simp only [Option.getD_some] at hb
    rw [dispatchDelete_reaction_eq env _ _ _ hsel] at hb
    simp only [List.head?_nil, Option.getD_none] at hb
    rw [hc]
    exact handle_eq_of_body hb

theorem dispatchCreate_topic_eq {Doc : Type} (env : DispatcherEnv Doc)
    (params : IndexParams Doc) :
    dispatchCreate env "topic" params =
      ([IndexerCall.createCall "topic" params], env.topicCreate) := by
  unfold dispatchCreate
  rw [if_pos rfl]

theorem dispatchCreate_reply_eq {Doc : Type} (env : DispatcherEnv Doc)
    (params : IndexParams Doc) :
    dispatchCreate env "reply" params =
      ([IndexerCall.createCall "reply" params], env.replyCreate) := by
  unfold dispatchCreate
  rw [if_neg (by decide), if_pos rfl]

theorem dispatchCreate_reaction_eq {Doc : Type} (env : DispatcherEnv Doc)
    (params : IndexParams Doc) :
    dispatchCreate env "reaction" params =
      ([IndexerCall.createCall "reaction" params], env.reactionCreate) := by
  unfold dispatchCreate
  rw [if_neg (by decide), if_neg (by decide), if_pos rfl]

theorem dispatchUpdate_topic_eq {Doc : Type} (env : DispatcherEnv Doc)
    (params : IndexParams Doc) :
    dispatchUpdate env "topic" params =
      ([IndexerCall.updateCall "topic" params], env.topicUpdate) := by
  unfold dispatchUpdate
  rw [if_pos rfl]

theorem dispatchUpdate_reply_eq {Doc : Type} (env : DispatcherEnv Doc)
    (params : IndexParams Doc) :
    dispatchUpdate env "reply" params =
      ([IndexerCall.updateCall "reply" params], env.replyUpdate) := by
  unfold dispatchUpdate
  rw [if_neg (by decide), if_pos rfl]

/-- The update switch has no reaction case: the call falls through with
no indexer invocation. -/
theorem dispatchUpdate_reaction_eq {Doc : Type} (env : DispatcherEnv Doc)
    (params : IndexParams Doc) :
    dispatchUpdate env "reaction" params = ([], Except.ok ()) := by
  unfold dispatchUpdate
  rw [if_neg (by decide), if_neg (by decide)]

/-- Reduction of `handleBody` on a create event of a supported
collection whose record validates. -/
theorem handleBody_create_eq {Doc : Type} (env : DispatcherEnv Doc)
    (event : RecordEvent Doc) (record : Doc)
    (haction : event.action = Action.create)
    (hrec : event.record = some record)
    (hsup : isSupportedCollection event.collection = true)
    (hval : validateRecord env.lexicons event.collection record = .success record) :
    handleBody env event =
      dispatchCreate env ((COLLECTION_MAP event.collection).getD "")
        { uri := "at://" ++ event.did ++ "/" ++ event.collection ++ "/" ++ event.rkey,
          rkey := event.rkey, did := event.did, cid := event.cid.getD "",
          record := record, live := event.live,
          trustStatus := upsertUserWithTrustCheck env event.did } := by
  unfold handleBody
  rw [haction, hrec, hsup]
  simp only [Bool.not_true, Bool.false_eq_true, if_false]
  rw [hval]
  simp

/-- Reduction of `handleBody` on an update event of a supported
collection whose record validates: the trust classification stays at
its trusted initial value. -/
theorem handleBody_update_eq {Doc : Type} (env : DispatcherEnv Doc)
    (event : RecordEvent Doc) (record : Doc)
    (haction : event.action = Action.update)
    (hrec : event.record = some record)
    (hsup : isSupportedCollection event.collection = true)
    (hval : validateRecord env.lexicons event.collection record = .success record) :
    handleBody env event =
      dispatchUpdate env ((COLLECTION_MAP event.collection).getD "")
        { uri := "at://" ++ event.did ++ "/" ++ event.collection ++ "/" ++ event.rkey,
          rkey := event.rkey, did := event.did, cid := event.cid.getD "",
          record := record, live := event.live,
          trustStatus := TrustStatus.trusted } := by
  unfold handleBody
  rw [haction, hrec, hsup]
  simp only [Bool.not_true, Bool.false_eq_true, if_false]
  rw [hval]
  simp

/-- Claim C9: on a create event that passes validation, an internal
error thrown during the identity upsert or account-age resolution makes
the trust classification default to trusted, and the event is still
dispatched to the matching indexer create entry point with that
classification; the handling returns normally. -/
theorem handle_create_trust_fails_open {Doc : Type} (env : DispatcherEnv Doc)
    (event : RecordEvent Doc) (record : Doc)
    (haction : event.action = Action.create)
    (hrec : event.record = some record)
    (hval : validateRecord env.lexicons event.collection record = .success record)
    (herr : upsertUserWithTrustCheckBody env event.did = Except.error ()) :
    upsertUserWithTrustCheck env event.did = TrustStatus.trusted ∧
    handle env event =
      ([IndexerCall.createCall ((COLLECTION_MAP event.collection).getD "")
          { uri := "at://" ++ event.did ++ "/" ++ event.collection ++ "/" ++ event.rkey,
            rkey := event.rkey, did := event.did, cid := event.cid.getD "",
            record := record, live := event.live,
            trustStatus := TrustStatus.trusted }], Except.ok ()) := by
  have htrust : upsertUserWithTrustCheck env event.did = TrustStatus.trusted := by
    unfold upsertUserWithTrustCheck
    rw [herr]
  refine ⟨htrust, ?_⟩
  have hsup := supported_of_validate_success hval
  have hb := handleBody_create_eq env event record haction hrec hsup hval
  rw [htrust] at hb
  rcases supported_collection_cases hsup with hc | hc | hc
  · rw [hc] at hb ⊢
    have hmap : COLLECTION_MAP "forum.atgora.topic.post" = some "topic" := by decide
    rw [hmap] at hb ⊢
    simp only [Option.getD_some] at hb ⊢
    rw [dispatchCreate_topic_eq] at hb
    exact handle_eq_of_body hb
  · rw [hc] at hb ⊢
    have hmap : COLLECTION_MAP "forum.atgora.topic.reply" = some "reply" := by decide
    rw [hmap] at hb ⊢
    simp only [Option.getD_some] at hb ⊢
    rw [dispatchCreate_reply_eq] at hb
    exact handle_eq_of_body hb
  · rw [hc] at hb ⊢
    have hmap : COLLECTION_MAP "forum.atgora.interaction.reaction" = some "reaction" := by
      decide
    rw [hmap] at hb ⊢
    simp only [Option.getD_some] at hb ⊢
    rw [dispatchCreate_reaction_eq] at hb
    exact handle_eq_of_body hb

/-- Claim C10: an update event that passes validation is silently
discarded when its collection is the reaction kind (no indexer entry
point invoked at all), while the topic and reply kinds are dispatched
to the matching indexer update entry point. -/
theorem handle_update_routing {Doc : Type} (env : DispatcherEnv Doc)
    (event : RecordEvent Doc) (record : Doc)
    (haction : event.action = Action.update)
    (hrec : event.record = some record)
    (hval : validateRecord env.lexicons event.collection record = .success record) :
    (event.collection = "forum.atgora.interaction.reaction" →
      handle env event = ([], Except.ok ())) ∧
    (event.collection = "forum.atgora.topic.post" →
      handle env event =
        ([IndexerCall.updateCall "topic"
            { uri := "at://" ++ event.did ++ "/" ++ event.collection ++ "/" ++ event.rkey,
              rkey := event.rkey, did := event.did, cid := event.cid.getD "",
              record := record, live := event.live,
              trustStatus := TrustStatus.trusted }], Except.ok ())) ∧
    (event.collection = "forum.atgora.topic.reply" →
      handle env event =
        ([IndexerCall.updateCall "reply"
            { uri := "at://" ++ event.did ++ "/" ++ event.collection ++ "/" ++ event.rkey,
              rkey := event.rkey, did := event.did, cid := event.cid.getD "",
              record := record, live := event.live,
              trustStatus := TrustStatus.trusted }], Except.ok ())) := by
  refine ⟨fun hc => ?_, fun hc => ?_, fun hc => ?_⟩
  · have hsup : isSupportedCollection event.collection = true := by rw [hc]; decide
    have hb := handleBody_update_eq env event record haction hrec hsup hval
    rw [hc] at hb
    have hmap : COLLECTION_MAP "forum.atgora.interaction.reaction" = some "reaction" := by
      decide
    rw [hmap] at hb
    simp only [Option.getD_some] at hb
    rw [dispatchUpdate_reaction_eq] at hb
    exact handle_eq_of_body hb
  · have hsup : isSupportedCollection event.collection = true := by rw [hc]; decide
    have hb := handleBody_update_eq env event record haction hrec hsup hval
    rw [hc] at hb ⊢
    have hmap : COLLECTION_MAP "forum.atgora.topic.post" = some "topic" := by decide
    rw [hmap] at hb
    simp only [Option.getD_some] at hb
    rw [dispatchUpdate_topic_eq] at hb
    exact handle_eq_of_body hb
  · have hsup : isSupportedCollection event.collection = true := by rw [hc]; decide
    have hb := handleBody_update_eq env event record haction hrec hsup hval
    rw [hc] at hb ⊢
    have hmap : COLLECTION_MAP "forum.atgora.topic.reply" = some "reply" := by decide
    rw [hmap] at hb
    simp only [Option.getD_some] at hb
    rw [dispatchUpdate_reply_eq] at hb
    exact handle_eq_of_body hb

/-- Claim C3, amended to the reason strings the source returns: with no
usable cache entry, `verify` resolves synchronously and maps a success
status to active, 410 to inactive with the tombstone reason (written to
cache), 404 to inactive with the not-found reason, and any other status
or a network/timeout failure to the fail-closed inactive verdict with
the resolution-failure reason. -/
theorem verify_cold_cache_mapping (did : String) (env : VerifyEnv)
    (hdid : isPlcDid did = true)
    (hread : env.cacheRead = Except.ok none ∨ env.cacheRead = Except.error ()) :
    (∀ status, env.plcFetch = FetchOutcome.response status → responseOk status = true →
      verify did env = Except.ok (DidVerificationResult.active,
        [VerifyEffect.cacheGet, VerifyEffect.upstreamCall false,
         VerifyEffect.cacheSet (cacheResult env.now DidVerificationResult.active)
           env.cacheWrite])) ∧
    (env.plcFetch = FetchOutcome.response 410 →
      verify did env = Except.ok (DidVerificationResult.inactive "DID has been tombstoned",
        [VerifyEffect.cacheGet, VerifyEffect.upstreamCall false,
         VerifyEffect.cacheSet
           (cacheResult env.now (DidVerificationResult.inactive "DID has been tombstoned"))
           env.cacheWrite])) ∧
    (env.plcFetch = FetchOutcome.response 404 →
      verify did env =
        Except.ok (DidVerificationResult.inactive "DID not found in PLC directory",
          [VerifyEffect.cacheGet, VerifyEffect.upstreamCall false,
           VerifyEffect.cacheSet
             (cacheResult env.now
               (DidVerificationResult.inactive "DID not found in PLC directory"))
             env.cacheWrite])) ∧
    (∀ status, env.plcFetch = FetchOutcome.response status → responseOk status = false →
      status ≠ 410 → status ≠ 404 →
      verify did env =
        Except.ok (DidVerificationResult.inactive "DID document resolution failed",
          [VerifyEffect.cacheGet, VerifyEffect.upstreamCall false])) ∧
    (env.plcFetch = FetchOutcome.netError →
      verify did env =
        Except.ok (DidVerificationResult.inactive "DID document resolution failed",
          [VerifyEffect.cacheGet, VerifyEffect.upstreamCall false])) := by
  have hv := verify_miss_eq hdid hread
  refine ⟨?_, ?_, ?_, ?_, ?_⟩
  · intro status hf hok
    rw [hv]
    unfold verifyMiss resolveFromPlc
    rw [hf]
    simp [hok]
  · intro hf
    rw [hv]
    unfold verifyMiss resolveFromPlc
    rw [hf]
    simp [responseOk]
  · intro hf
    rw [hv]
    unfold verifyMiss resolveFromPlc
    rw [hf]
    simp [responseOk]
  · intro status hf hok h410 h404
    rw [hv]
    unfold verifyMiss resolveFromPlc
    rw [hf]
    simp [hok, h410, h404]
  · intro hf
    rw [hv]
    unfold verifyMiss resolveFromPlc
    rw [hf]
    simp

/-- Witness for the amended C3 at concrete inputs: a cold cache with a
410 response yields the tombstone verdict and a cache write of that
verdict; a cold cache with a network failure yields the fail-closed
verdict with no cache write. -/
theorem verify_cold_cache_mapping_witness :
    verify "did:plc:w3"
      { now := 5, cacheRead := Except.ok none, plcFetch := FetchOutcome.response 410,
        cacheWrite := true, bgFetch := FetchOutcome.netError, bgCacheWrite := true } =
      Except.ok (DidVerificationResult.inactive "DID has been tombstoned",
        [VerifyEffect.cacheGet, VerifyEffect.upstreamCall false,
         VerifyEffect.cacheSet
           { active := false, reason := some "DID has been tombstoned", resolvedAt := 5 }
           true]) ∧
    verify "did:plc:w4"
      { now := 5, cacheRead := Except.error (), plcFetch := FetchOutcome.netError,
        cacheWrite := true, bgFetch := FetchOutcome.netError, bgCacheWrite := true } =
      Except.ok (DidVerificationResult.inactive "DID document resolution failed",
        [VerifyEffect.cacheGet, VerifyEffect.upstreamCall false]) :=
  ⟨(verify_cold_cache_mapping "did:plc:w3"
      { now := 5, cacheRead := Except.ok none, plcFetch := FetchOutcome.response 410,
        cacheWrite := true, bgFetch := FetchOutcome.netError, bgCacheWrite := true }
      (by decide) (Or.inl rfl)).2.1 rfl,
   (verify_cold_cache_mapping "did:plc:w4"
      { now := 5, cacheRead := Except.error (), plcFetch := FetchOutcome.netError,
        cacheWrite := true, bgFetch := FetchOutcome.netError, bgCacheWrite := true }
      (by decide) (Or.inr rfl)).2.2.2.2 rfl⟩

/-- Counterexample to C3 as stated: on a cold cache and a
permanent-removal (410) response, the reason string the code returns is
the full sentence, not the literal "tombstoned" the claim names. -/
theorem verify_tombstone_reason_counterexample :
    (verify "did:plc:cx"
        { now := 0, cacheRead := Except.ok none, plcFetch := FetchOutcome.response 410,
          cacheWrite := true, bgFetch := FetchOutcome.netError,
          bgCacheWrite := true }).toOption.map Prod.fst =
      some (DidVerificationResult.inactive "DID has been tombstoned") ∧
    DidVerificationResult.inactive "DID has been tombstoned" ≠
      DidVerificationResult.inactive "tombstoned" := by
  constructor
  · rfl
  · decide

/-- Claim C7: the validator runs the collection membership check, the
size check and the schema check in that order, short-circuiting on the
first failure; an oversized document is rejected with the size error
whatever the schemas say (the schema capability is never consulted:
any environment with the same serialization gives the same result). -/
theorem validateRecord_checks_order {Doc : Type} (lex lexAlt : LexiconEnv Doc)
    (collection : String) (record : Doc) :
    (isSupportedCollection collection = false →
      validateRecord lex collection record =
        ValidationResult.failure ("Unsupported collection: " ++ collection)) ∧
    (isSupportedCollection collection = true →
      lex.serializedLength record > MAX_RECORD_SIZE →
      validateRecord lex collection record =
        ValidationResult.failure
          ("Record exceeds maximum size of " ++ toString MAX_RECORD_SIZE ++ " bytes") ∧
      (lexAlt.serializedLength = lex.serializedLength →
        validateRecord lexAlt collection record = validateRecord lex collection record)) ∧
    (isSupportedCollection collection = true →
      ¬ lex.serializedLength record > MAX_RECORD_SIZE →
      ((schemaMap lex collection).safeParse record = false →
        validateRecord lex collection record =
          ValidationResult.failure ("Validation failed for " ++ collection)) ∧
      ((schemaMap lex collection).safeParse record = true →
        validateRecord lex collection record = ValidationResult.success record)) := by
  refine ⟨fun hu => ?_, fun hs hb => ⟨?_, fun hlen => ?_⟩,
    fun hs hb => ⟨fun hp => ?_, fun hp => ?_⟩⟩
  · simp [validateRecord, hu]
  · simp [validateRecord, hs, hb]
  · simp [validateRecord, hs, hb, hlen]
  · simp [validateRecord, hs, hb, hp]
  · simp [validateRecord, hs, hb, hp]

/-- Witness for C7: a 70 KiB document of the topic-post collection is
rejected with the size error although its schema accepts, and swapping
in schemas that reject changes nothing about the result. -/
theorem validateRecord_checks_order_witness :
    validateRecord (unitLex 71680 true) "forum.atgora.topic.post" () =
      ValidationResult.failure
        ("Record exceeds maximum size of " ++ toString MAX_RECORD_SIZE ++ " bytes") ∧
    validateRecord (unitLex 71680 false) "forum.atgora.topic.post" () =
      validateRecord (unitLex 71680 true) "forum.atgora.topic.post" () := by
  have h := (validateRecord_checks_order (unitLex 71680 true) (unitLex 71680 false)
    "forum.atgora.topic.post" ()).2.1 (by decide) (by decide)
  exact ⟨h.1, h.2 rfl⟩

/-- Witness for C8: delete events for a reply and for a reaction whose
URIs match no row still invoke the matching indexer delete entry point
with an empty compensating reference, and handling returns normally. -/
theorem handle_delete_missing_row_witness :
    handle unitDispatcherEnv (mkEvent "forum.atgora.topic.reply" Action.delete none) =
      ([IndexerCall.deleteCall "reply"
          ("at://" ++ "did:plc:a" ++ "/" ++ "forum.atgora.topic.reply" ++ "/" ++ "rk")
          "rk" "did:plc:a" (some "")], Except.ok ()) ∧
    handle unitDispatcherEnv (mkEvent "forum.atgora.interaction.reaction" Action.delete none) =
      ([IndexerCall.deleteCall "reaction"
          ("at://" ++ "did:plc:a" ++ "/" ++ "forum.atgora.interaction.reaction" ++ "/" ++ "rk")
          "rk" "did:plc:a" (some "")], Except.ok ()) :=
  ⟨(handle_delete_missing_row Unit unitDispatcherEnv
      (mkEvent "forum.atgora.topic.reply" Action.delete none) rfl).1 rfl rfl,
   (handle_delete_missing_row Unit unitDispatcherEnv
      (mkEvent "forum.atgora.interaction.reaction" Action.delete none) rfl).2 rfl rfl⟩

/-- Witness for C9: with the user select throwing, a valid topic-post
create event is still dispatched to the topic indexer with the trusted
classification. -/
theorem handle_create_trust_fails_open_witness :
    upsertUserWithTrustCheck
        { unitDispatcherEnv with userSelect := Except.error () } "did:plc:a" =
      TrustStatus.trusted ∧
    handle { unitDispatcherEnv with userSelect := Except.error () }
        (mkEvent "forum.atgora.topic.post" Action.create (some ())) =
      ([IndexerCall.createCall "topic"
          { uri := "at://" ++ "did:plc:a" ++ "/" ++ "forum.atgora.topic.post" ++ "/" ++ "rk",
            rkey := "rk", did := "did:plc:a", cid := "", record := (), live := true,
            trustStatus := TrustStatus.trusted }], Except.ok ()) := by
  have h := handle_create_trust_fails_open
    { unitDispatcherEnv with userSelect := Except.error () }
    (mkEvent "forum.atgora.topic.post" Action.create (some ())) ()
    rfl rfl rfl rfl
  exact ⟨h.1, h.2⟩

/-- Witness for C10: a valid reaction update is silently discarded with
no indexer call, while the same update of a topic post or a reply is
dispatched to that indexer update entry point. -/
theorem handle_update_routing_witness :
    handle unitDispatcherEnv
        (mkEvent "forum.atgora.interaction.reaction" Action.update (some ())) =
      ([], Except.ok ()) ∧
    handle unitDispatcherEnv (mkEvent "forum.atgora.topic.post" Action.update (some ())) =
      ([IndexerCall.updateCall "topic"
          { uri := "at://" ++ "did:plc:a" ++ "/" ++ "forum.atgora.topic.post" ++ "/" ++ "rk",
            rkey := "rk", did := "did:plc:a", cid := "", record := (), live := true,
            trustStatus := TrustStatus.trusted }], Except.ok ()) ∧
    handle unitDispatcherEnv (mkEvent "forum.atgora.topic.reply" Action.update (some ())) =
      ([IndexerCall.updateCall "reply"
          { uri := "at://" ++ "did:plc:a" ++ "/" ++ "forum.atgora.topic.reply" ++ "/" ++ "rk",
            rkey := "rk", did := "did:plc:a", cid := "", record := (), live := true,
            trustStatus := TrustStatus.trusted }], Except.ok ()) :=
  ⟨(handle_update_routing unitDispatcherEnv
      (mkEvent "forum.atgora.interaction.reaction" Action.update (some ())) ()
      rfl rfl rfl).1 rfl,
   (handle_update_routing unitDispatcherEnv
      (mkEvent "forum.atgora.topic.post" Action.update (some ())) ()
      rfl rfl rfl).2.1 rfl,
   (handle_update_routing unitDispatcherEnv
      (mkEvent "forum.atgora.topic.reply" Action.update (some ())) ()
      rfl rfl rfl).2.2 rfl⟩

end Atgora
